import Mathlib

/-!
Verification of the EduPath chat widget (`src/components/ChatBot.tsx`).

The embedding models the two behavioural units of the component:

* `getAIResponse` — the generation client: given the configured API key and
  the outcome of the single `fetch` round-trip, produce the assistant's
  reply text (with three literal fallback strings).
* `step` — the widget's state transitions: `setIsOpen`, `setInput`, the
  synchronous phase of `handleSend`, and the resolution of the awaited
  `getAIResponse` call (normal resolution or a thrown exception).

Decoded JSON response bodies are modelled by the inductive `Json`, with
JavaScript truthiness, member access (property access on `null` throws a
TypeError; access on other non-objects yields `undefined`, merged with
`null` here since the two are observationally equivalent in this code), and
indexing.
-/

namespace ApexLearn

/-- A decoded JSON value, as returned by `response.json()`.  JavaScript
`undefined` is merged into `null`: the two agree on truthiness, on
optional-chain short-circuiting, and on throwing when a member is read. -/
inductive Json where
  | null
  | bool (b : Bool)
  | num (n : Int)
  | str (s : String)
  | arr (elems : List Json)
  | obj (fields : List (String × Json))

/-- JavaScript truthiness of a decoded value (`0`, `""`, `false`, `null`
are falsy; arrays and objects are always truthy). -/
def Json.truthy : Json → Bool
  | .null => false
  | .bool b => b
  | .num n => n != 0
  | .str s => s != ""
  | .arr _ => true
  | .obj _ => true

/-- `null` / `undefined` test (both merged into `.null`). -/
def Json.isNullish : Json → Bool
  | .null => true
  | _ => false

/-- Non-throwing member access `j.k`, valid when `j` is not nullish:
objects look the key up, other values yield `undefined` (here `.null`). -/
def Json.member (j : Json) (k : String) : Json :=
  match j with
  | .obj fields => (fields.lookup k).getD .null
  | _ => .null

/-- Member access `j.k` as evaluated inside the `try` block: reading a
property of `null` (or `undefined`) throws a TypeError, modelled as
`.error ()`; any other receiver yields the member (or `undefined`). -/
def Json.memberOrThrow (j : Json) (k : String) : Except Unit Json :=
  match j with
  | .null => .error ()
  | _ => .ok (j.member k)

/-- Index access `j[0]`: arrays take their first element, objects the
property named `"0"`; other receivers yield `undefined` (a one-character
string result for string receivers is also nullish for every later member
access in the chain, so collapsing it to `.null` is observationally
equivalent here). -/
def Json.item0 : Json → Json
  | .arr elems => elems.head?.getD .null
  | .obj fields => (fields.lookup "0").getD .null
  | _ => .null

/-- The optional chain `candidates[0]?.content?.parts?.[0]?.text` from the
source, evaluated on an already-truthy `candidates` (so the initial index
access cannot throw). -/
def Json.candidatesText (candidates : Json) : Json :=
  if candidates.item0.isNullish then .null
  else if (candidates.item0.member "content").isNullish then .null
  else if ((candidates.item0.member "content").member "parts").isNullish then .null
  else if (((candidates.item0.member "content").member "parts").item0).isNullish then .null
  else (((candidates.item0.member "content").member "parts").item0).member "text"

mutual

/-- JavaScript string coercion of the value the source returns from the
truthy branch (`return data.candidates[0].content.parts[0].text`); on the
string texts the claims are about this is the identity. -/
def Json.toDisplay : Json → String
  | .null => "null"
  | .bool true => "true"
  | .bool false => "false"
  | .num n => toString n
  | .str s => s
  | .arr elems => Json.displayItems elems
  | .obj _ => "[object Object]"

/-- Comma-joined rendering of array elements. -/
def Json.displayItems : List Json → String
  | [] => ""
  | [j] => j.toDisplay
  | j :: rest => j.toDisplay ++ "," ++ Json.displayItems rest

end

/-- The no-credential fallback of `getAIResponse` (five study tips). -/
def studyTipsFallback : String :=
  "I'm here to help! To enable AI-powered responses, please add your Gemini API key to the .env file. In the meantime, I can provide general study tips:\n\n• Create a study schedule and stick to it\n• Practice regularly with mock tests\n• Focus on understanding concepts, not just memorization\n• Take regular breaks to avoid burnout\n• Review your mistakes and learn from them\n\nWhat specific topic would you like help with?"

/-- The empty-shape fallback of `getAIResponse`. -/
def troubleFallback : String :=
  "I apologize, but I'm having trouble generating a response right now. Please try rephrasing your question."

/-- The transport-failure fallback of `getAIResponse`. -/
def techDifficultiesFallback : String :=
  "I'm experiencing some technical difficulties. Please try again in a moment."

/-- The fixed instructional preamble placed before the student's question
in the request body. -/
def promptPrefix : String :=
  "You are an expert educational assistant for students preparing for JEE (Joint Entrance Examination), NEET (National Eligibility cum Entrance Test), and BTech courses. Your role is to help students understand concepts, solve doubts, and provide study guidance.\n\nContext: The student is using EduPath, an educational platform.\n\nStudent's question: "

/-- The fixed instructions placed after the student's question. -/
def promptSuffix : String :=
  "\n\nPlease provide a clear, concise, and helpful response. If the question is about a specific subject (Physics, Chemistry, Mathematics, Biology), provide detailed explanations with examples where appropriate."

/-- The text embedded in the single POST request body. -/
def requestText (userMessage : String) : String :=
  promptPrefix ++ userMessage ++ promptSuffix

/-- `!apiKey` from the source: the key is missing when the environment
variable is absent or the empty string (both falsy in JavaScript). -/
def apiKeyMissing : Option String → Bool
  | none => true
  | some s => s == ""

/-- Outcome of the `fetch` round-trip as observed by `getAIResponse`:
either both `fetch` and `response.json()` resolved, yielding a decoded
body, or one of them rejected (transport error / non-parseable body). -/
inductive FetchOutcome where
  | json (data : Json)
  | reject

/-- The generation client `getAIResponse` from the source, with the
environment (`VITE_GEMINI_API_KEY`) and the network outcome made explicit.
With no key it returns the study-tips fallback before any network call; on
a rejected round-trip, or a TypeError thrown while reading
`data.candidates` of a `null` body, the `catch` returns the
technical-difficulties fallback; otherwise the guarded extraction either
returns the extracted text or the trouble fallback. -/
def getAIResponse (apiKey : Option String) (outcome : FetchOutcome)
    (userMessage : String) : String :=
  if apiKeyMissing apiKey then
    studyTipsFallback
  else
    let _request := requestText userMessage
    match outcome with
    | .reject => techDifficultiesFallback
    | .json data =>
      match data.memberOrThrow "candidates" with
      | .error _ => techDifficultiesFallback
      | .ok candidates =>
        if candidates.truthy && (Json.candidatesText candidates).truthy then
          (Json.candidatesText candidates).toDisplay
        else
          troubleFallback

/-! ## Widget state -/

/-- JavaScript `String.prototype.trim`: remove leading and trailing
whitespace.  (List-based so the kernel can evaluate it on literals.) -/
def jsTrim (s : String) : String :=
  ⟨((s.data.dropWhile Char.isWhitespace).reverse.dropWhile
      Char.isWhitespace).reverse⟩

/-- `role`: fixed at creation. -/
inductive Role where
  | user
  | assistant
deriving DecidableEq

/-- One entry of the conversation (the `Message` interface of the source).
`Date` values are modelled as natural-number clock readings (milliseconds,
as produced by `Date.now()`). -/
structure Message where
  id : String
  role : Role
  content : String
  timestamp : Nat
deriving DecidableEq

/-- The widget's state: visibility, the ordered message log, the draft
input, the loading flag, and — standing in for the suspended continuation
of the awaited client call — the text of the in-flight request, `none`
when no round-trip is outstanding. -/
structure ChatState where
  isOpen : Bool
  messages : List Message
  input : String
  isLoading : Bool
  pendingRequest : Option String
deriving DecidableEq

/-- Content of the seeded assistant greeting. -/
def greetingText : String :=
  "Hi! I'm your EduPath study assistant. I can help you with JEE, NEET, and BTech subjects. What would you like to know?"

/-- The seeded greeting message (`id: '1'`), created at clock reading
`t0`. -/
def initialMessage (t0 : Nat) : Message :=
  { id := "1", role := .assistant, content := greetingText, timestamp := t0 }

/-- The initial widget state: closed, the greeting alone in the log, an
empty draft, not loading, no outstanding request. -/
def initialState (t0 : Nat) : ChatState :=
  { isOpen := false
    messages := [initialMessage t0]
    input := ""
    isLoading := false
    pendingRequest := none }

/-- The widget's events.  `handleSend` is the synchronous phase of the
send handler up to and including issuing the client call; `resolve` is the
continuation that runs when the awaited `getAIResponse` resolves, with the
clock reading, configured key, and network outcome at that moment;
`resolveThrow` is the continuation when the client call itself throws
(`catch` + `finally`). -/
inductive Op where
  | setIsOpen (b : Bool)
  | setInput (text : String)
  | handleSend (now : Nat)
  | resolve (now : Nat) (apiKey : Option String) (outcome : FetchOutcome)
  | resolveThrow

/-- One transition of the widget.

* `handleSend now`: if the trimmed draft is empty or a round-trip is in
  flight, return unchanged (`if (!input.trim() || isLoading) return`);
  otherwise append the user message (`id: Date.now().toString()`), clear
  the draft, set the loading flag, and start the client call on the
  trimmed text.
* `resolve now apiKey outcome`: when a request is outstanding, append the
  assistant message (`id: (Date.now() + 1).toString()`) carrying the
  client's returned text and clear the loading flag (`finally`).
* `resolveThrow`: when a request is outstanding, the `catch` only logs;
  the `finally` clears the loading flag; no message is appended.

A `resolve`/`resolveThrow` with no outstanding request has no real-world
counterpart and is the identity. -/
def step (s : ChatState) : Op → ChatState
  | .setIsOpen b => { s with isOpen := b }
  | .setInput text => { s with input := text }
  | .handleSend now =>
    if jsTrim s.input == "" || s.isLoading then s
    else
      { s with
        messages := s.messages ++
          [{ id := Nat.repr now, role := .user, content := jsTrim s.input,
             timestamp := now }]
        input := ""
        isLoading := true
        pendingRequest := some (jsTrim s.input) }
  | .resolve now apiKey outcome =>
    match s.pendingRequest with
    | none => s
    | some userText =>
      { s with
        messages := s.messages ++
          [{ id := Nat.repr (now + 1), role := .assistant,
             content := getAIResponse apiKey outcome userText,
             timestamp := now }]
        isLoading := false
        pendingRequest := none }
  | .resolveThrow =>
    match s.pendingRequest with
    | none => s
    | some _ => { s with isLoading := false, pendingRequest := none }

/-- A sequence of widget events applied in order. -/
def run (s : ChatState) (ops : List Op) : ChatState :=
  ops.foldl step s

/-! ## Injectivity of the decimal rendering used for message ids

Message ids are produced by `Date.now().toString()`, i.e. `Nat.repr` in
the embedding; distinct clock readings yield distinct ids because decimal
rendering is injective.  The library does not provide this, so it is
derived here through a decimal decoder that is a left inverse of
`Nat.toDigits 10`. -/

/-- Left inverse of `Nat.digitChar` on decimal digits. -/
def decodeDigit (c : Char) : Nat :=
  if c = '0' then 0 else if c = '1' then 1 else if c = '2' then 2 else
  if c = '3' then 3 else if c = '4' then 4 else if c = '5' then 5 else
  if c = '6' then 6 else if c = '7' then 7 else if c = '8' then 8 else 9

/-- Value of a most-significant-first decimal digit list. -/
def decodeDigits (l : List Char) : Nat :=
  l.foldl (fun a c => 10 * a + decodeDigit c) 0

/-- Spec-side reading of the expected response shape: the value found at
`candidates[0].content.parts[0].text` under total (null-absorbing) member
access, `.null` when any level is absent. -/
def Json.specTextValue (data : Json) : Json :=
  ((((data.member "candidates").item0.member "content").member
      "parts").item0).member "text"

/-- The clock readings taken by `handleSend` and `resolve` events, each at
least the running lower bound and advancing it by 2 (the user id consumes
`now`, the assistant id `now + 1`). -/
def clocksSeparated : Nat → List Op → Bool
  | _, [] => true
  | lb, .handleSend t :: rest => decide (lb ≤ t) && clocksSeparated (t + 2) rest
  | lb, .resolve t _ _ :: rest => decide (lb ≤ t) && clocksSeparated (t + 2) rest
  | lb, .setIsOpen _ :: rest => clocksSeparated lb rest
  | lb, .setInput _ :: rest => clocksSeparated lb rest
  | lb, .resolveThrow :: rest => clocksSeparated lb rest

/-- All message ids are decimal renderings of pairwise-distinct numbers
below `lb`. -/
def IdsFrom (msgs : List Message) (lb : Nat) : Prop :=
  ∃ ks : List Nat, msgs.map Message.id = ks.map Nat.repr ∧
    ks.Pairwise (· ≠ ·) ∧ ∀ k ∈ ks, k < lb

/-- The Scenario B response body of the spec:
`{candidates:[{content:{parts:[{text:"Newton's second law states F=ma."}]}}]}`. -/
def scenarioBBody : Json :=
  .obj [("candidates", .arr [.obj [("content", .obj [("parts",
    .arr [.obj [("text", .str "Newton's second law states F=ma.")]])])]])]

/-- A typical non-2xx gateway error body (credential rejection): valid
JSON, no `candidates` member. -/
def errorBody : Json :=
  .obj [("error", .obj [("code", .num 400),
    ("message", .str "API key not valid. Please pass a valid API key."),
    ("status", .str "INVALID_ARGUMENT")])]

theorem decodeDigit_digitChar : ∀ k < 10, decodeDigit (Nat.digitChar k) = k := by
  decide

theorem decodeDigits_append (l : List Char) (c : Char) :
    decodeDigits (l ++ [c]) = 10 * decodeDigits l + decodeDigit c := by
  simp [decodeDigits, List.foldl_append]

theorem toDigitsCore_append (fuel : Nat) :
    ∀ (n : Nat) (acc : List Char),
      Nat.toDigitsCore 10 fuel n acc = Nat.toDigitsCore 10 fuel n [] ++ acc := by
  induction fuel with
  | zero => intro n acc; simp [Nat.toDigitsCore]
  | succ f ih =>
    intro n acc
    simp only [Nat.toDigitsCore]
    by_cases h : n / 10 = 0
    · simp [h]
    · simp only [if_neg h]
      rw [ih (n / 10) [Nat.digitChar (n % 10)],
        ih (n / 10) (Nat.digitChar (n % 10) :: acc)]
      simp

theorem decodeDigits_toDigitsCore (fuel : Nat) :
    ∀ n : Nat, n < fuel → decodeDigits (Nat.toDigitsCore 10 fuel n []) = n := by
  induction fuel with
  | zero => intro n h; omega
  | succ f ih =>
    intro n h
    simp only [Nat.toDigitsCore]
    by_cases h10 : n / 10 = 0
    · have hlt : n < 10 := by omega
      simp [h10, Nat.mod_eq_of_lt hlt, decodeDigits, decodeDigit_digitChar n hlt]
    · have hn : 0 < n := by
        rcases Nat.eq_zero_or_pos n with h0 | h0
        · exact absurd (by simp [h0]) h10
        · exact h0
      have hdiv : n / 10 < n := Nat.div_lt_self hn (by omega)
      simp only [if_neg h10]
      rw [toDigitsCore_append, decodeDigits_append, ih (n / 10) (by omega),
        decodeDigit_digitChar (n % 10) (Nat.mod_lt n (by omega))]
      omega

theorem decodeDigits_toDigits (n : Nat) :
    decodeDigits (Nat.toDigits 10 n) = n :=
  decodeDigits_toDigitsCore (n + 1) n (Nat.lt_succ_self n)

theorem natRepr_injective : Function.Injective Nat.repr := by
  intro a b h
  have hd : Nat.toDigits 10 a = Nat.toDigits 10 b := by
    have h2 := congrArg String.data h
    simpa [Nat.repr, List.asString] using h2
  calc a = decodeDigits (Nat.toDigits 10 a) := (decodeDigits_toDigits a).symm
    _ = decodeDigits (Nat.toDigits 10 b) := by rw [hd]
    _ = b := decodeDigits_toDigits b

/-! ## Helper lemmas -/

theorem isNullish_iff (j : Json) : j.isNullish = true ↔ j = .null := by
  cases j <;> simp [Json.isNullish]

/-- The guarded optional chain agrees with the total chain: each nullish
early exit matches the `.null` the rest of the chain would produce. -/
theorem candidatesText_eq_chain (c : Json) :
    Json.candidatesText c =
      (((c.item0.member "content").member "parts").item0).member "text" := by
  unfold Json.candidatesText
  by_cases h1 : c.item0.isNullish = true
  · rw [if_pos h1, (isNullish_iff _).mp h1]; rfl
  · rw [if_neg h1]
    by_cases h2 : (c.item0.member "content").isNullish = true
    · rw [if_pos h2, (isNullish_iff _).mp h2]; rfl
    · rw [if_neg h2]
      by_cases h3 : ((c.item0.member "content").member "parts").isNullish = true
      · rw [if_pos h3, (isNullish_iff _).mp h3]; rfl
      · rw [if_neg h3]
        by_cases h4 :
            (((c.item0.member "content").member "parts").item0).isNullish = true
        · rw [if_pos h4, (isNullish_iff _).mp h4]; rfl
        · rw [if_neg h4]

/-- A falsy `candidates` value has no first element, so the whole chain
collapses to `.null`. -/
theorem chain_null_of_not_truthy (c : Json) (h : c.truthy = false) :
    (((c.item0.member "content").member "parts").item0).member "text" =
      .null := by
  cases c <;> simp_all [Json.truthy, Json.item0, Json.member]

/-- Every widget event leaves the previous message log as a prefix. -/
theorem step_messages_extend (s : ChatState) (op : Op) :
    ∃ t, (step s op).messages = s.messages ++ t := by
  cases op with
  | setIsOpen b => exact ⟨[], by simp [step]⟩
  | setInput text => exact ⟨[], by simp [step]⟩
  | handleSend now =>
    by_cases h : (jsTrim s.input == "" || s.isLoading) = true
    · exact ⟨[], by simp [step, h]⟩
    · exact ⟨[Message.mk (Nat.repr now) .user (jsTrim s.input) now],
        by simp [step, h]⟩
  | resolve now apiKey outcome =>
    cases hp : s.pendingRequest with
    | none => exact ⟨[], by simp [step, hp]⟩
    | some userText =>
      exact ⟨[Message.mk (Nat.repr (now + 1)) .assistant
          (getAIResponse apiKey outcome userText) now],
        by simp [step, hp]⟩
  | resolveThrow =>
    cases hp : s.pendingRequest with
    | none => exact ⟨[], by simp [step, hp]⟩
    | some userText => exact ⟨[], by simp [step, hp]⟩

/-- Any event sequence leaves the previous message log as a prefix. -/
theorem run_messages_extend (ops : List Op) :
    ∀ s : ChatState, ∃ t, (run s ops).messages = s.messages ++ t := by
  induction ops with
  | nil => intro s; exact ⟨[], by simp [run]⟩
  | cons op rest ih =>
    intro s
    obtain ⟨t1, h1⟩ := step_messages_extend s op
    obtain ⟨t2, h2⟩ := ih (step s op)
    refine ⟨t1 ++ t2, ?_⟩
    show (run (step s op) rest).messages = _
    rw [h2, h1, List.append_assoc]

/-! ## Clock separation and id uniqueness -/

theorem IdsFrom.mono {msgs : List Message} {lb lb2 : Nat}
    (h : IdsFrom msgs lb) (hle : lb ≤ lb2) : IdsFrom msgs lb2 := by
  obtain ⟨ks, h1, h2, h3⟩ := h
  exact ⟨ks, h1, h2, fun k hk => lt_of_lt_of_le (h3 k hk) hle⟩

theorem IdsFrom.snoc {msgs : List Message} {lb : Nat}
    (h : IdsFrom msgs lb) {t : Nat} (hle : lb ≤ t)
    {m : Message} (hid : m.id = Nat.repr t) : IdsFrom (msgs ++ [m]) (t + 1) := by
  obtain ⟨ks, h1, h2, h3⟩ := h
  refine ⟨ks ++ [t], ?_, ?_, ?_⟩
  · simp [h1, hid]
  · rw [List.pairwise_append]
    refine ⟨h2, by simp, ?_⟩
    intro a ha b hb
    simp only [List.mem_singleton] at hb
    subst hb
    have := h3 a ha
    omega
  · intro k hk
    rcases List.mem_append.mp hk with hk | hk
    · have := h3 k hk; omega
    · simp only [List.mem_singleton] at hk; omega

theorem clocksSeparated_run (ops : List Op) :
    ∀ (s : ChatState) (lb : Nat), IdsFrom s.messages lb →
      clocksSeparated lb ops = true →
      ∃ lb2, IdsFrom (run s ops).messages lb2 := by
  induction ops with
  | nil => intro s lb hs _; exact ⟨lb, hs⟩
  | cons op rest ih =>
    intro s lb hs h
    cases op with
    | setIsOpen b => exact ih (step s (.setIsOpen b)) lb hs h
    | setInput text => exact ih (step s (.setInput text)) lb hs h
    | resolveThrow =>
      refine ih (step s .resolveThrow) lb ?_ h
      cases hp : s.pendingRequest with
      | none => simpa [step, hp] using hs
      | some userText => simpa [step, hp] using hs
    | handleSend t =>
      obtain ⟨hle, hrest⟩ := Bool.and_eq_true_iff.mp h
      have hle2 : lb ≤ t := of_decide_eq_true hle
      refine ih (step s (.handleSend t)) (t + 2) ?_ hrest
      by_cases hc : (jsTrim s.input == "" || s.isLoading) = true
      · have : (step s (.handleSend t)).messages = s.messages := by
          simp [step, hc]
        rw [this]
        exact hs.mono (by omega)
      · have : (step s (.handleSend t)).messages = s.messages ++
            [{ id := Nat.repr t, role := .user, content := jsTrim s.input,
               timestamp := t }] := by
          simp [step, hc]
        rw [this]
        exact (hs.snoc hle2 rfl).mono (by omega)
    | resolve t apiKey outcome =>
      obtain ⟨hle, hrest⟩ := Bool.and_eq_true_iff.mp h
      have hle2 : lb ≤ t := of_decide_eq_true hle
      refine ih (step s (.resolve t apiKey outcome)) (t + 2) ?_ hrest
      cases hp : s.pendingRequest with
      | none =>
        have : (step s (.resolve t apiKey outcome)).messages = s.messages := by
          simp [step, hp]
        rw [this]
        exact hs.mono (by omega)
      | some userText =>
        have : (step s (.resolve t apiKey outcome)).messages = s.messages ++
            [{ id := Nat.repr (t + 1), role := .assistant,
               content := getAIResponse apiKey outcome userText,
               timestamp := t }] := by
          simp [step, hp]
        rw [this]
        exact hs.snoc (t := t + 1) (by omega) rfl

/-! ## Shape analysis of the client -/

theorem memberOrThrow_of_ne_null (j : Json) (k : String) (h : j ≠ .null) :
    j.memberOrThrow k = .ok (j.member k) := by
  cases j <;> simp_all [Json.memberOrThrow]

/-- With a configured key and a decoded body other than `null`, an absent
or empty extracted text makes the client answer the trouble apology. -/
theorem trouble_of_text_missing (key : String) (data : Json)
    (userMessage : String) (hk : apiKeyMissing (some key) = false)
    (hnull : data ≠ .null)
    (habs : Json.specTextValue data = .null ∨ Json.specTextValue data = .str "") :
    getAIResponse (some key) (.json data) userMessage = troubleFallback := by
  have hm := memberOrThrow_of_ne_null data "candidates" hnull
  have hchain : Json.candidatesText (data.member "candidates") =
      Json.specTextValue data := candidatesText_eq_chain (data.member "candidates")
  have hfalse : (Json.candidatesText (data.member "candidates")).truthy = false := by
    rcases habs with h | h <;> rw [hchain, h] <;> rfl
  simp [getAIResponse, hk, hm, hfalse]

/-- With a configured key and a decoded body other than `null`, a
non-empty extracted string is returned verbatim. -/
theorem text_returned (key : String) (data : Json) (userMessage : String)
    (text : String) (hk : apiKeyMissing (some key) = false)
    (hnull : data ≠ .null) (htext : Json.specTextValue data = .str text)
    (hne : text ≠ "") :
    getAIResponse (some key) (.json data) userMessage = text := by
  have hm := memberOrThrow_of_ne_null data "candidates" hnull
  have hchain : Json.candidatesText (data.member "candidates") =
      Json.specTextValue data := candidatesText_eq_chain (data.member "candidates")
  have htruthy : (Json.candidatesText (data.member "candidates")).truthy = true := by
    rw [hchain, htext]; simp [Json.truthy, hne]
  have hcand : (data.member "candidates").truthy = true := by
    cases hcc : (data.member "candidates").truthy with
    | true => rfl
    | false =>
      have hn : Json.specTextValue data = .null :=
        chain_null_of_not_truthy (data.member "candidates") hcc
      rw [htext] at hn
      exact Json.noConfusion hn
  have hdisp : (Json.candidatesText (data.member "candidates")).toDisplay = text := by
    rw [hchain, htext]; simp [Json.toDisplay]
  simp [getAIResponse, hk, hm, hcand, htruthy, hdisp]

/-! ## Claims -/

/-- C1: in a state whose draft trims to a non-empty string while Busy is
false, `handleSend` immediately appends exactly one `user` message whose
content is the trimmed draft, clears the draft, sets Busy, and starts the
client call on the trimmed text; the completion of that round-trip appends
exactly one `assistant` message carrying the client's returned text and
clears Busy — a total of exactly two appended messages, whichever
fallback branch of the client produced the text. -/
theorem handleSend_appends_exactly_two (s : ChatState) (t t2 : Nat)
    (apiKey : Option String) (outcome : FetchOutcome)
    (hne : jsTrim s.input ≠ "") (hb : s.isLoading = false) :
    (step s (.handleSend t)).messages =
      s.messages ++ [Message.mk (Nat.repr t) .user (jsTrim s.input) t] ∧
    (step s (.handleSend t)).messages.length = s.messages.length + 1 ∧
    (step s (.handleSend t)).input = "" ∧
    (step s (.handleSend t)).isLoading = true ∧
    (step s (.handleSend t)).pendingRequest = some (jsTrim s.input) ∧
    (step (step s (.handleSend t)) (.resolve t2 apiKey outcome)).messages =
      (step s (.handleSend t)).messages ++
        [Message.mk (Nat.repr (t2 + 1)) .assistant
          (getAIResponse apiKey outcome (jsTrim s.input)) t2] ∧
    (step (step s (.handleSend t)) (.resolve t2 apiKey outcome)).messages.length =
      s.messages.length + 2 ∧
    (step (step s (.handleSend t)) (.resolve t2 apiKey outcome)).isLoading
      = false := by
  have hcond : (jsTrim s.input == "" || s.isLoading) = false := by
    simp [hb, hne]
  have hstep : step s (.handleSend t) =
      { s with
        messages := s.messages ++
          [Message.mk (Nat.repr t) .user (jsTrim s.input) t]
        input := ""
        isLoading := true
        pendingRequest := some (jsTrim s.input) } := by
    simp [step, hcond]
  rw [hstep]
  refine ⟨rfl, by simp, rfl, rfl, rfl, ?_, ?_, ?_⟩ <;> simp [step]

/-- Concrete instance of C1 on the draft `" hi "` submitted at clock 5 and
resolved at clock 9 with no configured key. -/
theorem handleSend_appends_exactly_two_witness :
    (step (step (step (initialState 0) (.setInput " hi ")) (.handleSend 5))
        (.resolve 9 none .reject)).messages.length =
      (initialState 0).messages.length + 2 :=
  (handleSend_appends_exactly_two (step (initialState 0) (.setInput " hi "))
    5 9 none .reject (by decide) rfl).2.2.2.2.2.2.1

/-- C2: when the draft trims to the empty string or Busy is true,
`handleSend` is a no-op — the whole state (conversation, draft, Busy flag,
pending request) is unchanged and no client call is started. -/
theorem handleSend_noop (s : ChatState) (t : Nat)
    (h : jsTrim s.input = "" ∨ s.isLoading = true) :
    step s (.handleSend t) = s := by
  have hcond : (jsTrim s.input == "" || s.isLoading) = true := by
    rcases h with h | h <;> simp [h]
  simp [step, hcond]

/-- Concrete instance of C2: submitting while a round-trip is in flight
changes nothing. -/
theorem handleSend_noop_witness :
    step (step (step (initialState 0) (.setInput "x")) (.handleSend 3))
        (.handleSend 4) =
      step (step (initialState 0) (.setInput "x")) (.handleSend 3) :=
  handleSend_noop _ 4 (Or.inr (by decide))

/-- C3: with no configured credential the client returns exactly the
study-tips fallback, and the result is independent of the network outcome
(no network call is consulted). -/
theorem getAIResponse_no_key (apiKey : Option String)
    (outcome outcome2 : FetchOutcome) (userMessage : String)
    (h : apiKeyMissing apiKey = true) :
    getAIResponse apiKey outcome userMessage = studyTipsFallback ∧
    getAIResponse apiKey outcome userMessage =
      getAIResponse apiKey outcome2 userMessage := by
  constructor <;> simp [getAIResponse, h]

/-- Concrete instance of C3 on the Scenario A question. -/
theorem getAIResponse_no_key_witness :
    getAIResponse none .reject "How do I study for NEET?" = studyTipsFallback ∧
    getAIResponse none .reject "How do I study for NEET?" =
      getAIResponse none (.json .null) "How do I study for NEET?" :=
  getAIResponse_no_key none .reject (.json .null) "How do I study for NEET?" rfl

/-- C4 counterexample: the body `null` decodes as JSON and lacks the
nested shape, yet the client returns the technical-difficulties string,
not the trouble apology — reading `data.candidates` of `null` throws a
TypeError, which the surrounding catch converts to the transport
fallback. -/
theorem getAIResponse_shape_counterexample :
    Json.specTextValue .null = .null ∧
    getAIResponse (some "key") (.json .null) "hello" =
      techDifficultiesFallback ∧
    getAIResponse (some "key") (.json .null) "hello" ≠ troubleFallback :=
  ⟨rfl, rfl, by decide⟩

/-- C4 amended: for every decoded body other than the JSON literal `null`,
if the value at `candidates[0].content.parts[0].text` is absent or the
empty string the client returns exactly the trouble apology, and if it is
a non-empty string the client returns exactly that text.  (On the `null`
body the member access throws and the catch yields the
technical-difficulties string instead.) -/
theorem getAIResponse_shape (key : String) (data : Json)
    (userMessage : String) (hk : apiKeyMissing (some key) = false)
    (hnull : data ≠ .null) :
    ((Json.specTextValue data = .null ∨ Json.specTextValue data = .str "") →
      getAIResponse (some key) (.json data) userMessage = troubleFallback) ∧
    (∀ text : String, Json.specTextValue data = .str text → text ≠ "" →
      getAIResponse (some key) (.json data) userMessage = text) :=
  ⟨trouble_of_text_missing key data userMessage hk hnull,
   fun text htext hne => text_returned key data userMessage text hk hnull htext hne⟩

/-- Concrete instance of amended C4 on the Scenario B body. -/
theorem getAIResponse_shape_witness :
    getAIResponse (some "key") (.json scenarioBBody) "What is F=ma?" =
      "Newton's second law states F=ma." :=
  (getAIResponse_shape "key" scenarioBBody "What is F=ma?" rfl
    (fun h => Json.noConfusion h)).2
    "Newton's second law states F=ma." rfl (by decide)

/-- C5: the client is a total function — a failed round-trip (transport
error or non-parseable body) is caught locally and answered with exactly
the technical-difficulties string. -/
theorem getAIResponse_reject (apiKey : Option String) (userMessage : String)
    (hk : apiKeyMissing apiKey = false) :
    getAIResponse apiKey .reject userMessage = techDifficultiesFallback := by
  simp [getAIResponse, hk]

/-- Concrete instance of C5. -/
theorem getAIResponse_reject_witness :
    getAIResponse (some "key") .reject "hi" = techDifficultiesFallback :=
  getAIResponse_reject (some "key") "hi" rfl

/-- C6: when the awaited client call itself throws, the catch only logs —
no message is appended — and the finally clause clears Busy; on the
normal resolution path Busy is likewise cleared, so every completion path
resets Busy (and the pending request). -/
theorem completion_clears_busy (s : ChatState) (userText : String)
    (hp : s.pendingRequest = some userText) (t : Nat)
    (apiKey : Option String) (outcome : FetchOutcome) :
    (step s .resolveThrow).messages = s.messages ∧
    (step s .resolveThrow).isLoading = false ∧
    (step s .resolveThrow).pendingRequest = none ∧
    (step s (.resolve t apiKey outcome)).isLoading = false ∧
    (step s (.resolve t apiKey outcome)).pendingRequest = none := by
  refine ⟨?_, ?_, ?_, ?_, ?_⟩ <;> simp [step, hp]

/-- Concrete instance of C6 after submitting `"q"` at clock 3. -/
theorem completion_clears_busy_witness :
    (step (step (step (initialState 0) (.setInput "q")) (.handleSend 3))
        .resolveThrow).messages =
      (step (step (initialState 0) (.setInput "q")) (.handleSend 3)).messages ∧
    (step (step (step (initialState 0) (.setInput "q")) (.handleSend 3))
        .resolveThrow).isLoading = false ∧
    (step (step (step (initialState 0) (.setInput "q")) (.handleSend 3))
        .resolveThrow).pendingRequest = none ∧
    (step (step (step (initialState 0) (.setInput "q")) (.handleSend 3))
        (.resolve 7 none .reject)).isLoading = false ∧
    (step (step (step (initialState 0) (.setInput "q")) (.handleSend 3))
        (.resolve 7 none .reject)).pendingRequest = none :=
  completion_clears_busy _ "q" (by decide) 7 none .reject

/-- C7 counterexample: ids come from `Date.now()`, so a round-trip that
resolves within the same millisecond as its submission lets the next
submission reuse a consumed value — this trace produces the id sequence
`"1", "5", "6", "6"`, which is not pairwise distinct. -/
theorem message_ids_unique_counterexample :
    ¬ ((run (initialState 0) [.setInput "hi", .handleSend 5,
        .resolve 5 none .reject, .setInput "yo", .handleSend 6]).messages.map
          Message.id).Pairwise (· ≠ ·) := by
  decide

/-- C7 amended: message ids (the seeded `"1"` included) are pairwise
distinct provided the clock readings consumed by submissions and
completions start no lower than 2 and each advances past the previous
reading by at least 2 (a submission consumes `now`, a completion
`now + 1`). -/
theorem message_ids_unique (t0 : Nat) (ops : List Op)
    (h : clocksSeparated 2 ops = true) :
    ((run (initialState t0) ops).messages.map
      Message.id).Pairwise (· ≠ ·) := by
  have hinit : IdsFrom (initialState t0).messages 2 :=
    ⟨[1], rfl, by simp, by simp⟩
  obtain ⟨lb2, ks, h1, h2, h3⟩ :=
    clocksSeparated_run ops (initialState t0) 2 hinit h
  rw [h1]
  exact h2.map Nat.repr (fun a b hne heq => hne (natRepr_injective heq))

/-- Concrete instance of amended C7: separated clock readings 2, 4, 6. -/
theorem message_ids_unique_witness :
    ((run (initialState 0) [.setInput "hi", .handleSend 2,
        .resolve 4 none .reject, .setInput "yo", .handleSend 6]).messages.map
          Message.id).Pairwise (· ≠ ·) :=
  message_ids_unique 0 _ (by decide)

/-- C8: after any event sequence the conversation still starts with the
seeded assistant greeting — present initially, never removed or
replaced. -/
theorem greeting_always_first (t0 : Nat) (ops : List Op) :
    (run (initialState t0) ops).messages.head? = some (initialMessage t0) ∧
    (initialMessage t0).role = .assistant ∧
    (initialMessage t0).content = greetingText := by
  obtain ⟨t, ht⟩ := run_messages_extend ops (initialState t0)
  refine ⟨?_, rfl, rfl⟩
  rw [ht]
  rfl

/-- C9: the conversation is append-only — any event sequence leaves the
previous message sequence as an unchanged prefix, so its length never
decreases. -/
theorem conversation_append_only (s : ChatState) (ops : List Op) :
    (∃ t, (run s ops).messages = s.messages ++ t) ∧
    s.messages.length ≤ (run s ops).messages.length := by
  obtain ⟨t, ht⟩ := run_messages_extend ops s
  exact ⟨⟨t, ht⟩, by rw [ht]; simp⟩

/-- C10 counterexample: a body that parses as JSON (`null`) and contains
no non-empty text nonetheless produces the technical-difficulties
fallback, not the trouble apology — the transport-failure branch also
fires on the TypeError raised while destructuring the null body. -/
theorem fallback_discrimination_counterexample :
    getAIResponse (some "secret") (.json .null) "How do I study?" =
      techDifficultiesFallback ∧
    Json.specTextValue .null = .null ∧
    techDifficultiesFallback ≠ troubleFallback :=
  ⟨rfl, rfl, by decide⟩

/-- C10 amended: with a configured key, every decoded body other than the
JSON literal `null` whose extracted text is absent or empty — non-2xx
error bodies included — yields the trouble apology; the
technical-difficulties fallback arises exactly from a rejected round-trip
or from the `null` body, whose member access throws inside the try
block. -/
theorem fallback_discrimination (key : String) (userMessage : String)
    (data : Json) (hk : apiKeyMissing (some key) = false) :
    (data ≠ .null →
      (Json.specTextValue data = .null ∨ Json.specTextValue data = .str "") →
      getAIResponse (some key) (.json data) userMessage = troubleFallback) ∧
    getAIResponse (some key) .reject userMessage = techDifficultiesFallback ∧
    getAIResponse (some key) (.json .null) userMessage =
      techDifficultiesFallback := by
  refine ⟨fun hnull habs =>
    trouble_of_text_missing key data userMessage hk hnull habs, ?_, ?_⟩ <;>
    simp [getAIResponse, hk, Json.memberOrThrow]

/-- Concrete instance of amended C10 on a credential-rejection body. -/
theorem fallback_discrimination_witness :
    getAIResponse (some "bad-key") (.json errorBody) "hi" = troubleFallback ∧
    getAIResponse (some "bad-key") .reject "hi" = techDifficultiesFallback ∧
    getAIResponse (some "bad-key") (.json .null) "hi" =
      techDifficultiesFallback :=
  ⟨(fallback_discrimination "bad-key" "hi" errorBody rfl).1
      (fun h => Json.noConfusion h) (Or.inl rfl),
   (fallback_discrimination "bad-key" "hi" errorBody rfl).2.1,
   (fallback_discrimination "bad-key" "hi" errorBody rfl).2.2⟩

end ApexLearn
